import Mathlib

/-!
Shallow embedding of the `sqlxinsert` crate (src/src/lib.rs): a pair of
derive macros that synthesize single-row SQL `insert` statements and their
bind sequences from a struct's named fields.

The repository code is a procedural macro; its runtime meaning is the code
it generates.  We embed:
  * `dollar_values` (src/src/lib.rs:9-15), the placeholder synthesizer;
  * the column-list rendering and the two statement templates
    (src/src/lib.rs:76 and :165);
  * the generated `insert_raw` method (src/src/lib.rs:80-90), which sends
    the plain-dialect statement with the field values bound in declaration
    order to a connection pool and propagates the driver outcome via `?`;
  * the generated `insert<T>` method (src/src/lib.rs:169-185), which sends
    the returning-dialect statement inside a transaction, fetches exactly
    one row and decodes it;
  * the expansion-time shape check of both derives (src/src/lib.rs:48-54
    and :133-139), which accepts only structs with named fields.

External collaborators (the `sqlx` driver, the row decoder, the
`quote`/`proc-macro2` token-to-text rendering) are not part of this
repository; where their behaviour decides a claim they are modelled from
the spec's interface description, and each such definition says so in its
doc comment.
-/

namespace Sqlxinsert

/-- A SQL value bound onto a statement.  The crate binds arbitrary sqlx
encodable field values; the claims only need integers, strings and NULL
(for `Option::None` fields). -/
inductive Value where
  | int (n : Int)
  | str (s : String)
  | null
deriving DecidableEq, Repr

/-- A record instance: the struct's named fields in declaration order,
each paired with its value.  This is the ordered field enumeration the
derive macros read from the struct definition (`fields.named`). -/
abbrev Record := List (String × Value)

/-- The field names of a record in declaration order. -/
def fieldNames (r : Record) : List String := r.map Prod.fst

/-- The bind sequence: the field values in declaration order, exactly the
order of the generated `.bind(&self.field)` chain (src/src/lib.rs:84-86
and :178-180, which iterate the same `fields.named` list as the column
list). -/
def bindSeq (r : Record) : List Value := r.map Prod.snd

/-- Embedding of `dollar_values` before the final join: the iterator
`1..max+1` mapped through `format!("${}", s)` and collected
(src/src/lib.rs:10-13). -/
def dollar_entries (max : Nat) : List String :=
  (List.range' 1 max).map (fun s => "$" ++ toString s)

/-- Embedding of `dollar_values` (src/src/lib.rs:9-15): the collected
entries joined with `","`. -/
def dollar_values (max : Nat) : String :=
  String.intercalate "," (dollar_entries max)

/-- Modelled from the spec: the column list is "a comma-joined sequence of
field names".  In the source the text comes from
`format!("{}", quote! { #( #field_name ),* })` (src/src/lib.rs:66-69 and
:154-159); the token-stream-to-text rendering is implemented by the
external `quote`/`proc-macro2` collaborators, not by this repository, and
the spec fixes its result as the comma-joined field names. -/
def columns (names : List String) : String :=
  String.intercalate "," names

/-- The statement text generated by the `SqliteInsert` derive
(src/src/lib.rs:76): the plain-dialect template
`insert into {table} ( {columns} ) values ( {placeholders} )`, with the
column and placeholder lists baked in from the struct's fields. -/
def sqlite_insert_query (names : List String) (table : String) : String :=
  "insert into " ++ table ++ " ( " ++ columns names ++ " ) values ( " ++
    dollar_values names.length ++ " )"

/-- The statement text generated by the `PgInsert` derive
(src/src/lib.rs:165): the same template with ` returning *` appended. -/
def pg_insert_query (names : List String) (table : String) : String :=
  "insert into " ++ table ++ " ( " ++ columns names ++ " ) values ( " ++
    dollar_values names.length ++ " ) returning *"

/-- The sqlite driver's execution metadata (`sqlx::sqlite::SqliteQueryResult`),
opaque pass-through data as far as this crate is concerned. -/
structure SqliteQueryResult where
  rows_affected : Nat
  last_insert_rowid : Int
deriving DecidableEq, Repr

/-- A connection pool, seen through the only operation the generated code
uses: execute a statement text with a bind sequence and report either the
driver's execution metadata or a driver error. -/
abbrev SqlitePool := String → List Value → Except String SqliteQueryResult

/-- Embedding of the generated `insert_raw` method (src/src/lib.rs:80-90):
build the plain-dialect statement, bind the field values in declaration
order, execute on the pool; `.await?` propagates a driver error and the
surrounding `Ok( ... )` returns the driver result unchanged. -/
def insert_raw (self : Record) (pool : SqlitePool) (table : String) :
    Except String SqliteQueryResult :=
  match pool (sqlite_insert_query (fieldNames self) table) (bindSeq self) with
  | .ok r => .ok r
  | .error e => .error e

/-- A returned row: column name / value pairs. -/
abbrev Row := List (String × Value)

/-- A transaction handle, seen through the only operation the generated
code uses: execute a statement text with a bind sequence and report either
the returned rows or a driver error.  Per the spec's interface, the handle
returns "zero-or-more rows". -/
abbrev PgTransaction := String → List Value → Except String (List Row)

/-- The error outcomes of the insert-and-fetch path: a server rejection, a
row-cardinality violation of the fetch, or a row-decode failure. -/
inductive InsertError where
  | dbError (e : String)
  | rowCount (n : Nat)
  | decodeFailure (e : String)
deriving DecidableEq, Repr

/-- Modelled from the spec: the driver's `fetch_one` combined with row
decoding (the `sqlx` side of src/src/lib.rs:177-182 is not part of this
repository).  The spec says the fetch path "expects exactly one row back;
fails with a database-error kind if zero or more than one row is returned,
or if row decoding into `ResultType` fails". -/
def fetch_one {T : Type} (decode : Row → Except String T) (rows : List Row) :
    Except InsertError T :=
  match rows with
  | [r] =>
    match decode r with
    | .ok t => .ok t
    | .error e => .error (.decodeFailure e)
  | _ => .error (.rowCount rows.length)

/-- The handling of the transaction's raw outcome by the generated
`insert` body: a server error propagates via `?`, otherwise the returned
rows go through the one-row fetch-and-decode. -/
def run_fetch {T : Type} (decode : Row → Except String T) :
    Except String (List Row) → Except InsertError T
  | .ok rows => fetch_one decode rows
  | .error e => .error (.dbError e)

/-- Embedding of the generated `insert<T>` method (src/src/lib.rs:169-185):
build the returning-dialect statement, bind the field values in
declaration order, execute inside the caller's transaction and decode the
single returned row into `T`. -/
def insert {T : Type} (self : Record) (tx : PgTransaction) (table : String)
    (decode : Row → Except String T) : Except InsertError T :=
  run_fetch decode (tx (pg_insert_query (fieldNames self) table) (bindSeq self))

/-- The shape of a struct's field list as seen by the derive input
(`syn::Fields`). -/
inductive Fields where
  | named (names : List String)
  | unnamed (arity : Nat)
  | unit

/-- The shape of the derive input's data (`syn::Data`). -/
inductive Data where
  | struct (fields : Fields)
  | enum
  | union

/-- A derive input: the type's identifier and its data shape
(`syn::DeriveInput`, restricted to what the macros inspect). -/
structure DeriveInput where
  ident : String
  data : Data

/-- The generated impl, seen through the statement text it can produce:
the struct's name and its `insert_query` method. -/
structure Expansion where
  struct_name : String
  insert_query : String → String

/-- Embedding of the `SqliteInsert` derive entry point
(src/src/lib.rs:45-93): on a struct with named fields it emits the impl;
on any other input shape the expansion panics (`none` here) and no code is
generated (src/src/lib.rs:48-54). -/
def derive_from_struct_sqlite (input : DeriveInput) : Option Expansion :=
  match input.data with
  | .struct (.named names) =>
    some { struct_name := input.ident
           insert_query := fun table => sqlite_insert_query names table }
  | _ => none

/-- Embedding of the `PgInsert` derive entry point (src/src/lib.rs:130-188):
same shape check (src/src/lib.rs:133-139), returning-dialect template. -/
def derive_from_struct_psql (input : DeriveInput) : Option Expansion :=
  match input.data with
  | .struct (.named names) =>
    some { struct_name := input.ident
           insert_query := fun table => pg_insert_query names table }
  | _ => none

/-- The doc-example record for the sqlite path: `Car { car_id: 33,
car_name: "Skoda" }` (src/src/lib.rs:22-31). -/
def car : Record := [("car_id", Value.int 33), ("car_name", Value.str "Skoda")]

/-- The doc-example record for the postgres path: `CreateCar { name:
"Skoda", color: None }` (src/src/lib.rs:107-118). -/
def createCar : Record := [("name", Value.str "Skoda"), ("color", Value.null)]

/-! ## Helper lemmas (shared between claim theorems) -/

/-- Unfolding lemma: `insert_raw` is exactly the pool's outcome on the
plain-dialect statement and the declaration-order bind sequence. -/
theorem insert_raw_eq (r : Record) (pool : SqlitePool) (t : String) :
    insert_raw r pool t = pool (sqlite_insert_query (fieldNames r) t) (bindSeq r) := by
  unfold insert_raw
  cases pool (sqlite_insert_query (fieldNames r) t) (bindSeq r) <;> rfl

/-- Unfolding lemma: `insert` is the fetch-and-decode of the transaction's
outcome on the returning-dialect statement and the declaration-order bind
sequence. -/
theorem insert_eq {T : Type} (r : Record) (tx : PgTransaction) (t : String)
    (decode : Row → Except String T) :
    insert r tx t decode =
      run_fetch decode (tx (pg_insert_query (fieldNames r) t) (bindSeq r)) := rfl

/-- The placeholder synthesizer produces one entry per requested arity. -/
theorem dollar_entries_length (N : Nat) : (dollar_entries N).length = N := by
  simp [dollar_entries]

/-- Regrouping a trailing ` returning *` suffix of a statement text. -/
theorem append_returning (a : String) :
    (a ++ " )") ++ " returning *" = a ++ " ) returning *" := by
  rw [String.append_assoc]
  congr 1

/-! ## Claim theorems -/

/-- C1: for every arity N ≥ 1, the placeholder synthesizer `dollar_values`
returns exactly N comma-joined entries, whose i-th entry (0-based) is
`$(i+1)` — numbered from 1, contiguous, no gaps, no reuse, independent of
field names or types; in particular `dollar_values 3 = "$1,$2,$3"`. -/
theorem dollar_values_spec (N : Nat) (_h : 1 ≤ N) :
    (dollar_entries N).length = N ∧
    (∀ i (hi : i < (dollar_entries N).length),
        (dollar_entries N).get ⟨i, hi⟩ = "$" ++ toString (i + 1)) ∧
    dollar_values N = String.intercalate "," (dollar_entries N) ∧
    dollar_values 3 = "$1,$2,$3" := by
  refine ⟨dollar_entries_length N, ?_, rfl, by decide⟩
  intro i hi
  simp only [dollar_entries, List.get_eq_getElem, List.getElem_map,
    List.getElem_range'_1]
  rw [Nat.add_comm 1 i]

/-- C1 witness: the theorem applied at the concrete arity N = 3. -/
theorem dollar_values_spec_witness : dollar_values 3 = "$1,$2,$3" :=
  (dollar_values_spec 3 (by decide)).2.2.2

/-- C2: for the record type with fields (car_id, car_name) and values
(33, "Skoda"), the execute-only path builds exactly
`insert into cars ( car_id,car_name ) values ( $1,$2 )` for table `cars`
(plain dialect, no returning clause) and hands the pool that statement
with the binds (33, "Skoda") in that order. -/
theorem sqlite_execute_path_car_example :
    sqlite_insert_query (fieldNames car) "cars" =
      "insert into cars ( car_id,car_name ) values ( $1,$2 )" ∧
    bindSeq car = [Value.int 33, Value.str "Skoda"] ∧
    ∀ pool : SqlitePool,
      insert_raw car pool "cars" =
        pool "insert into cars ( car_id,car_name ) values ( $1,$2 )"
          [Value.int 33, Value.str "Skoda"] := by
  have hs : sqlite_insert_query (fieldNames car) "cars" =
      "insert into cars ( car_id,car_name ) values ( $1,$2 )" := by decide
  refine ⟨hs, rfl, fun pool => ?_⟩
  rw [insert_raw_eq, hs]
  rfl

/-- C3: for the record type with fields (name, color), the
insert-and-fetch path builds exactly
`insert into cars ( name,color ) values ( $1,$2 ) returning *` for table
`cars`: the plain-dialect statement with ` returning *` appended. -/
theorem pg_fetch_path_statement_text :
    pg_insert_query (fieldNames createCar) "cars" =
      "insert into cars ( name,color ) values ( $1,$2 ) returning *" ∧
    pg_insert_query (fieldNames createCar) "cars" =
      sqlite_insert_query (fieldNames createCar) "cars" ++ " returning *" := by
  constructor <;> decide

/-- C4: for every record, the column list, the placeholder list and the
bind sequence all have cardinality equal to the field count; the bind
sequence is exactly the field values in declaration order (the i-th bound
value is the i-th declared field's value); and both strategies pass
execution exactly the snd-projection of the field list in declaration
order. -/
theorem column_bind_parity (r : Record) :
    (fieldNames r).length = r.length ∧
    (dollar_entries r.length).length = r.length ∧
    (bindSeq r).length = r.length ∧
    (∀ i (hi : i < (bindSeq r).length) (hr : i < r.length),
        (bindSeq r).get ⟨i, hi⟩ = (r.get ⟨i, hr⟩).2) ∧
    (∀ (pool : SqlitePool) (t : String),
        insert_raw r pool t =
          pool (sqlite_insert_query (fieldNames r) t) (r.map Prod.snd)) ∧
    (∀ (T : Type) (tx : PgTransaction) (t : String)
        (decode : Row → Except String T),
        insert r tx t decode =
          run_fetch decode (tx (pg_insert_query (fieldNames r) t) (r.map Prod.snd))) := by
  refine ⟨by simp [fieldNames], dollar_entries_length r.length, by simp [bindSeq],
    ?_, ?_, ?_⟩
  · intro i hi hr
    simp [bindSeq]
  · intro pool t
    exact insert_raw_eq r pool t
  · intro T tx t decode
    rfl

/-- C5: the insert-and-fetch operation expects exactly one row back: when
the transaction returns zero rows or more than one row it fails with a
row-count error, when decoding the single returned row fails it fails with
a decode error, and it succeeds only when exactly one row came back and
decoded — no partial result. -/
theorem insert_fetch_one_row_contract {T : Type} (r : Record)
    (tx : PgTransaction) (t : String) (decode : Row → Except String T)
    (rows : List Row)
    (htx : tx (pg_insert_query (fieldNames r) t) (bindSeq r) = .ok rows) :
    (rows.length ≠ 1 →
        insert r tx t decode = .error (.rowCount rows.length)) ∧
    (∀ row e, rows = [row] → decode row = .error e →
        insert r tx t decode = .error (.decodeFailure e)) ∧
    (∀ v, insert r tx t decode = .ok v →
        ∃ row, rows = [row] ∧ decode row = .ok v) := by
  have hins : insert r tx t decode = fetch_one decode rows := by
    rw [insert_eq, htx]
    rfl
  refine ⟨?_, ?_, ?_⟩
  · intro hne
    rw [hins]
    match rows, hne with
    | [], _ => rfl
    | [a], hne => exact absurd rfl hne
    | a :: b :: l, _ => rfl
  · intro row e hrow hdec
    subst hrow
    rw [hins]
    simp [fetch_one, hdec]
  · intro v hok
    rw [hins] at hok
    match rows, hok with
    | [a], hok =>
      refine ⟨a, rfl, ?_⟩
      revert hok
      simp only [fetch_one]
      cases hd : decode a with
      | ok w => intro hok; cases hok; rfl
      | error e => intro hok; cases hok
    | [], hok => cases hok
    | a :: b :: l, hok => cases hok

/-- C5 witness: a transaction that returns two rows makes the fetch path
fail with a row-count error. -/
theorem insert_fetch_one_row_contract_witness :
    insert (T := Row) car (fun _ _ => .ok [[], []]) "cars" (fun row => .ok row) =
      .error (.rowCount 2) :=
  (insert_fetch_one_row_contract car (fun _ _ => .ok [[], []]) "cars"
      (fun row => .ok row) [[], []] rfl).1 (by decide)

/-- C6: `insert_raw` is exactly the driver's outcome: `Ok` of the driver
result when the pool call succeeds, and the driver's error value otherwise
— no retry, no recovery, no swallowing. -/
theorem insert_raw_propagates_driver_outcome (r : Record) (pool : SqlitePool)
    (t : String) :
    insert_raw r pool t =
      pool (sqlite_insert_query (fieldNames r) t) (bindSeq r) :=
  insert_raw_eq r pool t

/-- C7: statement generation is deterministic and value-independent: the
statement text is a function of the field names and the table only, so two
records with the same field names but different values yield identical
statement text under both dialects. -/
theorem statement_text_value_independent (r r' : Record) (t : String)
    (h : fieldNames r = fieldNames r') :
    sqlite_insert_query (fieldNames r) t = sqlite_insert_query (fieldNames r') t ∧
    pg_insert_query (fieldNames r) t = pg_insert_query (fieldNames r') t := by
  rw [h]
  exact ⟨rfl, rfl⟩

/-- C7 witness: two records with the same single field `a` but different
values produce the same statement text. -/
theorem statement_text_value_independent_witness :
    sqlite_insert_query (fieldNames [("a", Value.int 1)]) "t" =
      sqlite_insert_query (fieldNames [("a", Value.int 2)]) "t" :=
  (statement_text_value_independent [("a", Value.int 1)] [("a", Value.int 2)]
      "t" rfl).1

/-- C8: the two generators share the column/placeholder synthesis: for any
field-name list and table, the `PgInsert` statement text equals the
`SqliteInsert` statement text with ` returning *` appended (both feed the
same field count to the same placeholder synthesizer and the same names to
the same column rendering). -/
theorem pg_refines_sqlite_with_returning (names : List String) (t : String) :
    pg_insert_query names t = sqlite_insert_query names t ++ " returning *" := by
  unfold pg_insert_query sqlite_insert_query
  rw [append_returning]

/-- C9: for arity 0 the placeholder synthesizer returns the empty string,
and the composed statement contains the syntactically invalid fragment
`values (  )` — nothing guards against the degenerate case. -/
theorem zero_arity_degenerate :
    dollar_values 0 = "" ∧
    sqlite_insert_query ([] : List String) "cars" =
      "insert into cars (  ) values (  )" ∧
    (∀ t : String, sqlite_insert_query ([] : List String) t =
        ("insert into " ++ t) ++ " (  ) values (  )") := by
  refine ⟨rfl, by decide, ?_⟩
  intro t
  unfold sqlite_insert_query
  rw [show columns ([] : List String) = "" from rfl]
  rw [show dollar_values (List.length ([] : List String)) = "" from rfl]
  rw [String.append_empty, String.append_empty]
  rw [String.append_assoc, String.append_assoc]
  congr 1

/-- C10: each derive accepts exactly the struct-with-named-fields inputs —
on an enum, union, tuple struct or unit struct the expansion aborts (no
code is generated), and on every named-field struct it succeeds, emitting
the total `insert_query` of the corresponding dialect. -/
theorem derive_shape_check (input : DeriveInput) :
    ((derive_from_struct_sqlite input).isSome ↔
      ∃ names, input.data = Data.struct (Fields.named names)) ∧
    ((derive_from_struct_psql input).isSome ↔
      ∃ names, input.data = Data.struct (Fields.named names)) ∧
    (∀ (ident : String) (names : List String),
      derive_from_struct_sqlite ⟨ident, Data.struct (Fields.named names)⟩ =
        some ⟨ident, fun table => sqlite_insert_query names table⟩) ∧
    (∀ (ident : String) (names : List String),
      derive_from_struct_psql ⟨ident, Data.struct (Fields.named names)⟩ =
        some ⟨ident, fun table => pg_insert_query names table⟩) := by
  obtain ⟨id, d⟩ := input
  refine ⟨?_, ?_, fun ident names => rfl, fun ident names => rfl⟩
  all_goals
    cases d with
    | struct fs =>
      cases fs with
      | named ns => simp [derive_from_struct_sqlite, derive_from_struct_psql]
      | unnamed n => simp [derive_from_struct_sqlite, derive_from_struct_psql]
      | unit => simp [derive_from_struct_sqlite, derive_from_struct_psql]
    | enum => simp [derive_from_struct_sqlite, derive_from_struct_psql]
    | union => simp [derive_from_struct_sqlite, derive_from_struct_psql]

end Sqlxinsert
